import Mathlib

/-
Shallow embedding of src/js/three.js (interactive 3D house viewer).

The script wires a three.js scene to DOM overlays:
  * a material table (name -> color, name -> description) drives recoloring,
  * meshes whose materials carry a known name are collected into a
    clickable list once the glTF model finishes loading,
  * a click handler raycasts against that list and mutates the nearest
    materials of the hit mesh and two DOM panels,
  * an Escape keydown handler fades the roof overlay out (opacity now,
    display after a 300 ms timeout) and hides the info panel at once,
  * a resize handler updates camera aspect and renderer size.

Materials are shared mutable objects; we model them as a store indexed by
Nat, and a mesh holds the indices of its materials.  Asynchronous effects
(requestAnimationFrame, setTimeout) are modelled as pending-action queues
inside the state, discharged by explicit frame / timeout-firing events.
The geometry of raycasting is abstracted: a click event carries the
distance-sorted list of meshes the ray geometrically hits, and the handler
keeps only those in the clickable list, as intersectObjects does.
-/

namespace ThreeHouse

/-- A three.js material as the script uses it: a name (never written by the
script) and a color (written by the click handler). -/
structure Material where
  name : String
  color : String
deriving DecidableEq, Repr

/-- A mesh of the loaded model: an identifier and the indices of its
materials in the material store (the script normalises child.material to an
array, so a list covers both the single and the multi material case). -/
structure Mesh where
  id : Nat
  matIds : List Nat
deriving DecidableEq, Repr

/-- Style of the optional roof overlay element: its display and opacity. -/
structure OverlayStyle where
  display : String
  opacity : String
deriving DecidableEq, Repr

/-- The callback the click handler passes to requestAnimationFrame: it sets
the overlay opacity to "1". -/
inductive RAFAction where
  | setOverlayOpacity1
deriving DecidableEq, Repr

/-- The callback the keydown handler passes to setTimeout: it sets the
overlay display to "none". -/
inductive TimeoutAction where
  | hideOverlay
deriving DecidableEq, Repr

/-- A DOM or material write performed by the click handler, in program
order; used to state which assignments a handler run performs. -/
inductive DomWrite where
  | setMatColor (i : Nat) (c : String)
  | setOverlayDisplay (v : String)
  | scheduleOverlayFade
  | setInfoText (v : String)
  | setInfoDisplay (v : String)
deriving DecidableEq, Repr

/-- Loading phase: the RGBE environment callback has not fired yet, has
fired (and called loadModel), or the glTF callback has also fired. -/
inductive Phase where
  | start
  | envLoaded
  | modelLoaded
deriving DecidableEq, Repr

/-- Camera state relevant to the resize handler: the aspect field and the
aspect baked into the projection matrix by updateProjectionMatrix. -/
structure CameraState where
  aspect : ℚ
  projAspect : ℚ
deriving DecidableEq, Repr

/-- Renderer state relevant to the resize handler: the drawing surface
size set by renderer.setSize. -/
structure RendererState where
  width : ℚ
  height : ℚ
deriving DecidableEq, Repr

/-- The mutable state of the script: loading phase, whether the
environment map was installed on the scene, the material store, the
clickable mesh list, the optional overlay element style (none when the
element is absent from the page), the info panel style and text, and the
queues of pending requestAnimationFrame and setTimeout callbacks
(timeouts carry their delay in milliseconds). -/
structure AppState where
  phase : Phase
  envInstalled : Bool
  mats : Nat → Material
  clickable : List Mesh
  overlay : Option OverlayStyle
  infoDisplay : String
  infoText : String
  pendingRAF : List RAFAction
  pendingTimeouts : List (Nat × TimeoutAction)
  camera : CameraState
  renderer : RendererState

/-- Source constant roofMaterialName. -/
def roofMaterialName : String := "genting.004"

/-- Source constant roofColor. -/
def roofColor : String := "#5CA9E9"

/-- Source table otherMaterialColors, a literal object mapping material
names to replacement colors. -/
def otherMaterialColors (n : String) : Option String :=
  if n = "Glass.009" then some "#87CEEB"
  else if n = "Material.137" then some "#FFD700"
  else if n = "Material.136" then some "#228B22"
  else none

/-- Source table materialDescriptions, mapping material names to the info
panel text. -/
def materialDescriptions (n : String) : Option String :=
  if n = "Glass.009" then some "Title of obj: WINDOW"
  else if n = "Material.137" then some "Title of obj: ROOF"
  else if n = "Material.136" then some "Title of obj: GARDEN"
  else none

/-- The condition under which loadModel pushes a mesh for a material:
mat.name === roofMaterialName || otherMaterialColors[mat.name]. -/
def isClickableName (n : String) : Bool :=
  n = roofMaterialName || (otherMaterialColors n).isSome

/-- Pointwise update of the material store (mutating one shared material
object in place). -/
def storeSet (f : Nat → Material) (i : Nat) (m : Material) : Nat → Material :=
  fun j => if j = i then m else f j

/-- The material indices of a mesh whose store entry has a clickable name. -/
def matchingMatIds (store : Nat → Material) (m : Mesh) : List Nat :=
  m.matIds.filter (fun i => isClickableName (store i).name)

/-- The clickable mesh list built by the loadModel traversal: for every
mesh and for each of its materials with a known name, the mesh is pushed
once (so a mesh appears once per matching material). -/
def buildClickable (store : Nat → Material) (meshes : List Mesh) : List Mesh :=
  meshes.flatMap (fun m => (matchingMatIds store m).map (fun _ => m))

/-- Initial state of the script after the top-level statements ran: the
overlay element, when present, is hidden (display "none", opacity "0");
the programmatically created info panel has empty inline display and its
placeholder text; nothing is loaded yet.  The camera starts with the
window aspect, the renderer with the window size. -/
def initState (overlayElem : Option OverlayStyle) (w h : ℚ) : AppState where
  phase := Phase.start
  envInstalled := false
  mats := fun _ => { name := "", color := "" }
  clickable := []
  overlay := overlayElem.map (fun _ => { display := "none", opacity := "0" })
  infoDisplay := ""
  infoText := "Material info will appear here."
  pendingRAF := []
  pendingTimeouts := []
  camera := { aspect := w / h, projAspect := w / h }
  renderer := { width := w, height := h }

/-- Roof branch of the material loop in the click handler: set the material
color to roofColor and, when the overlay element exists, set its display
to "flex" and schedule a requestAnimationFrame callback raising its
opacity to "1". -/
def clickMatRoof (acc : AppState × List DomWrite) (i : Nat) :
    AppState × List DomWrite :=
  let st := acc.1
  let st1 := { st with mats := storeSet st.mats i { st.mats i with color := roofColor } }
  match st1.overlay with
  | some o =>
      ({ st1 with overlay := some { o with display := "flex" },
                  pendingRAF := st1.pendingRAF ++ [RAFAction.setOverlayOpacity1] },
       acc.2 ++ [DomWrite.setMatColor i roofColor,
                 DomWrite.setOverlayDisplay "flex",
                 DomWrite.scheduleOverlayFade])
  | none =>
      (st1, acc.2 ++ [DomWrite.setMatColor i roofColor])

/-- Table branch of the material loop in the click handler: set the material
color to the table color, write the description (or the fallback text)
into the materialText element, and set the info panel display to
"block". -/
def clickMatOther (acc : AppState × List DomWrite) (i : Nat) (c : String) :
    AppState × List DomWrite :=
  let st := acc.1
  let d := (materialDescriptions (st.mats i).name).getD "Material clicked."
  ({ st with mats := storeSet st.mats i { st.mats i with color := c },
             infoText := d,
             infoDisplay := "block" },
   acc.2 ++ [DomWrite.setMatColor i c,
             DomWrite.setInfoText d,
             DomWrite.setInfoDisplay "block"])

/-- One iteration of materials.forEach in the click handler. -/
def clickMat (acc : AppState × List DomWrite) (i : Nat) :
    AppState × List DomWrite :=
  if (acc.1.mats i).name = roofMaterialName then
    clickMatRoof acc i
  else
    match otherMaterialColors (acc.1.mats i).name with
    | some c => clickMatOther acc i c
    | none => acc

/-- The click handler: raycaster.intersectObjects(clickableMeshes) keeps,
in distance order, the geometric hits that are clickable meshes; on the
nearest hit the handler runs the material loop; with no hit it does
nothing.  The second component records the writes performed, in order. -/
def handleClick (s : AppState) (ray : List Mesh) : AppState × List DomWrite :=
  match (ray.filter (fun m => s.clickable.contains m)).head? with
  | none => (s, [])
  | some m => m.matIds.foldl clickMat (s, [])

/-- The keydown handler for Escape: when the overlay element exists and
its display is "flex", set its opacity to "0" and schedule a 300 ms
timeout that sets its display to "none"; then, when the info panel
display is "block", set it to "none" immediately. -/
def handleKeydown (s : AppState) : AppState :=
  let s1 :=
    match s.overlay with
    | some o =>
        if o.display = "flex" then
          { s with overlay := some { o with opacity := "0" },
                   pendingTimeouts := s.pendingTimeouts ++ [(300, TimeoutAction.hideOverlay)] }
        else s
    | none => s
  if s1.infoDisplay = "block" then { s1 with infoDisplay := "none" } else s1

/-- Run one pending requestAnimationFrame callback. -/
def runRAF (a : RAFAction) (s : AppState) : AppState :=
  match a, s.overlay with
  | RAFAction.setOverlayOpacity1, some o =>
      { s with overlay := some { o with opacity := "1" } }
  | RAFAction.setOverlayOpacity1, none => s

/-- A paint frame: all pending requestAnimationFrame callbacks run, in the
order they were scheduled, and the queue empties. -/
def runFrame (s : AppState) : AppState :=
  s.pendingRAF.foldl (fun st a => runRAF a st) { s with pendingRAF := [] }

/-- Run one fired setTimeout callback. -/
def runTimeoutAction (a : TimeoutAction) (s : AppState) : AppState :=
  match a, s.overlay with
  | TimeoutAction.hideOverlay, some o =>
      { s with overlay := some { o with display := "none" } }
  | TimeoutAction.hideOverlay, none => s

/-- The earliest pending timeout fires: it leaves the queue and runs. -/
def fireFirstTimeout (s : AppState) : AppState :=
  match s.pendingTimeouts with
  | [] => s
  | (_, a) :: rest => runTimeoutAction a { s with pendingTimeouts := rest }

/-- The resize handler: camera.aspect := w / h, updateProjectionMatrix,
renderer.setSize(w, h). -/
def handleResize (w h : ℚ) (s : AppState) : AppState :=
  { s with camera := { aspect := w / h, projAspect := w / h },
           renderer := { width := w, height := h } }

/-- Events delivered to the script.  envLoadComplete is the RGBELoader
callback (it installs the environment and calls loadModel);
modelLoadComplete is the GLTFLoader callback, carrying the loaded
material store and mesh list; click carries the distance-sorted list of
meshes the pointer ray geometrically hits; keydownEscape, frame,
fireTimeout and resize are as above. -/
inductive Event where
  | envLoadComplete
  | modelLoadComplete (store : Nat → Material) (meshes : List Mesh)
  | click (ray : List Mesh)
  | keydownEscape
  | frame
  | fireTimeout
  | resize (w h : ℚ)

/-- One step of the event-driven script.  The GLTF callback can only fire
if loadModel ran, and loadModel is called exactly once, from the RGBE
callback; the phase field encodes this chaining. -/
def step (s : AppState) : Event → AppState
  | Event.envLoadComplete =>
      if s.phase = Phase.start then
        { s with phase := Phase.envLoaded, envInstalled := true }
      else s
  | Event.modelLoadComplete store meshes =>
      if s.phase = Phase.envLoaded then
        { s with phase := Phase.modelLoaded,
                 mats := store,
                 clickable := buildClickable store meshes }
      else s
  | Event.click ray => (handleClick s ray).1
  | Event.keydownEscape => handleKeydown s
  | Event.frame => runFrame s
  | Event.fireTimeout => fireFirstTimeout s
  | Event.resize w h => handleResize w h s

/-- Run the script from its initial state through a list of events. -/
def runTrace (overlayElem : Option OverlayStyle) (w h : ℚ)
    (trace : List Event) : AppState :=
  trace.foldl step (initState overlayElem w h)

/-- Display of the overlay element, when it exists. -/
def overlayDisplayOf (s : AppState) : Option String :=
  s.overlay.map (fun o => o.display)

/-- Opacity of the overlay element, when it exists. -/
def overlayOpacityOf (s : AppState) : Option String :=
  s.overlay.map (fun o => o.opacity)

/-- The color the click handler assigns to a material of the given name,
when any: roofColor for the roof name, the table color otherwise. -/
def targetColor (n : String) : Option String :=
  if n = roofMaterialName then some roofColor else otherMaterialColors n

theorem storeSet_same (f : Nat → Material) (i : Nat) (m : Material) :
    storeSet f i m i = m := by
  simp [storeSet]

theorem storeSet_other (f : Nat → Material) (i j : Nat) (m : Material)
    (h : j ≠ i) : storeSet f i m j = f j := by
  simp [storeSet, h]

theorem foldl_inv {α β : Type} (P : α → Prop) (f : α → β → α)
    (hP : ∀ a b, P a → P (f a b)) :
    ∀ (l : List β) (a : α), P a → P (l.foldl f a) := by
  intro l
  induction l with
  | nil => intro a ha; exact ha
  | cons b t ih => intro a ha; exact ih (f a b) (hP a b ha)

theorem foldl_reach {α β : Type} (P Q : α → Prop) (f : α → β → α) (i : β)
    (hQ : ∀ a b, Q a → Q (f a b))
    (hP : ∀ a b, P a → P (f a b))
    (hhit : ∀ a, Q a → P (f a i)) :
    ∀ (l : List β) (a : α), i ∈ l → Q a → P (l.foldl f a) := by
  intro l
  induction l with
  | nil => intro a hi; cases hi
  | cons b t ih =>
      intro a hi hQa
      rcases List.mem_cons.mp hi with hib | hit2
      · subst hib
        exact foldl_inv P f hP t (f a i) (hhit a hQa)
      · exact ih (f a b) hit2 (hQ a b hQa)

theorem clickMat_clickable (acc : AppState × List DomWrite) (b : Nat) :
    (clickMat acc b).1.clickable = acc.1.clickable := by
  by_cases hn : (acc.1.mats b).name = roofMaterialName
  · cases hov : acc.1.overlay <;> simp [clickMat, clickMatRoof, hn, hov]
  · cases hoc : otherMaterialColors (acc.1.mats b).name <;>
      simp [clickMat, clickMatOther, hn, hoc]

theorem clickMat_phase (acc : AppState × List DomWrite) (b : Nat) :
    (clickMat acc b).1.phase = acc.1.phase := by
  by_cases hn : (acc.1.mats b).name = roofMaterialName
  · cases hov : acc.1.overlay <;> simp [clickMat, clickMatRoof, hn, hov]
  · cases hoc : otherMaterialColors (acc.1.mats b).name <;>
      simp [clickMat, clickMatOther, hn, hoc]

theorem clickMat_envInstalled (acc : AppState × List DomWrite) (b : Nat) :
    (clickMat acc b).1.envInstalled = acc.1.envInstalled := by
  by_cases hn : (acc.1.mats b).name = roofMaterialName
  · cases hov : acc.1.overlay <;> simp [clickMat, clickMatRoof, hn, hov]
  · cases hoc : otherMaterialColors (acc.1.mats b).name <;>
      simp [clickMat, clickMatOther, hn, hoc]

theorem clickMat_name (acc : AppState × List DomWrite) (b i : Nat) :
    ((clickMat acc b).1.mats i).name = (acc.1.mats i).name := by
  by_cases hib : i = b
  · subst hib
    by_cases hn : (acc.1.mats i).name = roofMaterialName
    · cases hov : acc.1.overlay <;>
        simp [clickMat, clickMatRoof, hn, hov, storeSet_same]
    · cases hoc : otherMaterialColors (acc.1.mats i).name <;>
        simp [clickMat, clickMatOther, hn, hoc, storeSet_same]
  · by_cases hn : (acc.1.mats b).name = roofMaterialName
    · cases hov : acc.1.overlay <;>
        simp [clickMat, clickMatRoof, hn, hov, storeSet_other _ _ _ _ hib]
    · cases hoc : otherMaterialColors (acc.1.mats b).name <;>
        simp [clickMat, clickMatOther, hn, hoc, storeSet_other _ _ _ _ hib]

theorem clickMat_overlay_none (acc : AppState × List DomWrite) (b : Nat)
    (h : acc.1.overlay = none) : (clickMat acc b).1.overlay = none := by
  by_cases hn : (acc.1.mats b).name = roofMaterialName
  · simp [clickMat, clickMatRoof, hn, h]
  · cases hoc : otherMaterialColors (acc.1.mats b).name <;>
      simp [clickMat, clickMatOther, hn, hoc, h]

theorem clickMat_overlay_isSome (acc : AppState × List DomWrite) (b : Nat) :
    ((clickMat acc b).1.overlay).isSome = (acc.1.overlay).isSome := by
  by_cases hn : (acc.1.mats b).name = roofMaterialName
  · cases hov : acc.1.overlay <;> simp [clickMat, clickMatRoof, hn, hov]
  · cases hoc : otherMaterialColors (acc.1.mats b).name <;>
      simp [clickMat, clickMatOther, hn, hoc]

theorem clickMat_overlay_flex (acc : AppState × List DomWrite) (b : Nat)
    (h : ∃ o, acc.1.overlay = some o ∧ o.display = "flex") :
    ∃ o, (clickMat acc b).1.overlay = some o ∧ o.display = "flex" := by
  obtain ⟨o, hov, hd⟩ := h
  by_cases hn : (acc.1.mats b).name = roofMaterialName
  · exact ⟨{ o with display := "flex" }, by simp [clickMat, clickMatRoof, hn, hov], rfl⟩
  · cases hoc : otherMaterialColors (acc.1.mats b).name <;>
      exact ⟨o, by simp [clickMat, clickMatOther, hn, hoc, hov], hd⟩

theorem clickMat_flex_hit (acc : AppState × List DomWrite) (b : Nat)
    (hn : (acc.1.mats b).name = roofMaterialName)
    (h : (acc.1.overlay).isSome = true) :
    ∃ o, (clickMat acc b).1.overlay = some o ∧ o.display = "flex" := by
  cases hov : acc.1.overlay with
  | none => rw [hov] at h; simp at h
  | some o =>
      exact ⟨{ o with display := "flex" },
        by simp [clickMat, clickMatRoof, hn, hov], rfl⟩

theorem clickMat_infoBlock (acc : AppState × List DomWrite) (b : Nat)
    (h : acc.1.infoDisplay = "block") :
    (clickMat acc b).1.infoDisplay = "block" := by
  by_cases hn : (acc.1.mats b).name = roofMaterialName
  · cases hov : acc.1.overlay <;> simp [clickMat, clickMatRoof, hn, hov, h]
  · cases hoc : otherMaterialColors (acc.1.mats b).name <;>
      simp [clickMat, clickMatOther, hn, hoc, h]

theorem clickMat_info_hit137 (acc : AppState × List DomWrite) (b : Nat)
    (hn : (acc.1.mats b).name = "Material.137") :
    (clickMat acc b).1.infoDisplay = "block" := by
  have hnr : ¬ (acc.1.mats b).name = roofMaterialName := by
    rw [hn]; decide
  have hoc : otherMaterialColors (acc.1.mats b).name = some "#FFD700" := by
    rw [hn]; decide
  simp [clickMat, clickMatOther, hnr, hoc]

theorem clickMat_write_mono (acc : AppState × List DomWrite) (b : Nat)
    (w : DomWrite) (h : w ∈ acc.2) : w ∈ (clickMat acc b).2 := by
  by_cases hn : (acc.1.mats b).name = roofMaterialName
  · cases hov : acc.1.overlay <;>
      simp [clickMat, clickMatRoof, hn, hov, List.mem_append, h]
  · cases hoc : otherMaterialColors (acc.1.mats b).name <;>
      simp [clickMat, clickMatOther, hn, hoc, List.mem_append, h]

theorem clickMat_write_hit137 (acc : AppState × List DomWrite) (b : Nat)
    (hn : (acc.1.mats b).name = "Material.137") :
    DomWrite.setInfoText "Title of obj: ROOF" ∈ (clickMat acc b).2 := by
  have hnr : ¬ (acc.1.mats b).name = roofMaterialName := by
    rw [hn]; decide
  have hoc : otherMaterialColors (acc.1.mats b).name = some "#FFD700" := by
    rw [hn]; decide
  have hd : materialDescriptions (acc.1.mats b).name = some "Title of obj: ROOF" := by
    rw [hn]; decide
  simp [clickMat, clickMatOther, hnr, hoc, hd, List.mem_append]

theorem clickMat_color_hit (acc : AppState × List DomWrite) (i : Nat)
    (n c : String) (hc : targetColor n = some c)
    (hn : (acc.1.mats i).name = n) :
    (clickMat acc i).1.mats i = { name := n, color := c } := by
  by_cases hr : n = roofMaterialName
  · have hcr : c = roofColor := by
      rw [targetColor, if_pos hr] at hc
      exact (Option.some_inj.mp hc).symm
    cases hov : acc.1.overlay <;>
      simp [clickMat, clickMatRoof, hn, hr, hov, storeSet_same, hcr]
  · have hoc : otherMaterialColors n = some c := by
      rw [targetColor, if_neg hr] at hc
      exact hc
    simp [clickMat, clickMatOther, hn, hr, hoc, storeSet_same]

theorem clickMat_color_stable (acc : AppState × List DomWrite) (b i : Nat)
    (n c : String) (hc : targetColor n = some c)
    (h : acc.1.mats i = { name := n, color := c }) :
    (clickMat acc b).1.mats i = { name := n, color := c } := by
  by_cases hib : i = b
  · subst hib
    have hni : (acc.1.mats i).name = n := by rw [h]
    have := clickMat_color_hit acc i n c hc hni
    exact this
  · by_cases hn : (acc.1.mats b).name = roofMaterialName
    · cases hov : acc.1.overlay <;>
        simp [clickMat, clickMatRoof, hn, hov, storeSet_other _ _ _ _ hib, h]
    · cases hoc : otherMaterialColors (acc.1.mats b).name <;>
        simp [clickMat, clickMatOther, hn, hoc, storeSet_other _ _ _ _ hib, h]

theorem clickMat_raf_mono (acc : AppState × List DomWrite) (b : Nat)
    (h : acc.1.pendingRAF ≠ []) : (clickMat acc b).1.pendingRAF ≠ [] := by
  by_cases hn : (acc.1.mats b).name = roofMaterialName
  · cases hov : acc.1.overlay <;>
      simp [clickMat, clickMatRoof, hn, hov, h]
  · cases hoc : otherMaterialColors (acc.1.mats b).name <;>
      simp [clickMat, clickMatOther, hn, hoc, h]

theorem clickMat_raf_hit (acc : AppState × List DomWrite) (b : Nat)
    (hn : (acc.1.mats b).name = roofMaterialName)
    (h : (acc.1.overlay).isSome = true) :
    (clickMat acc b).1.pendingRAF ≠ [] := by
  cases hov : acc.1.overlay with
  | none => rw [hov] at h; simp at h
  | some o => simp [clickMat, clickMatRoof, hn, hov]

theorem foldl_clickMat_clickable (l : List Nat) (acc : AppState × List DomWrite) :
    (l.foldl clickMat acc).1.clickable = acc.1.clickable := by
  refine foldl_inv (fun a => a.1.clickable = acc.1.clickable) clickMat ?_ l acc rfl
  intro a b ha
  rw [clickMat_clickable]; exact ha

theorem foldl_clickMat_phase (l : List Nat) (acc : AppState × List DomWrite) :
    (l.foldl clickMat acc).1.phase = acc.1.phase := by
  refine foldl_inv (fun a => a.1.phase = acc.1.phase) clickMat ?_ l acc rfl
  intro a b ha
  rw [clickMat_phase]; exact ha

theorem foldl_clickMat_envInstalled (l : List Nat) (acc : AppState × List DomWrite) :
    (l.foldl clickMat acc).1.envInstalled = acc.1.envInstalled := by
  refine foldl_inv (fun a => a.1.envInstalled = acc.1.envInstalled) clickMat ?_ l acc rfl
  intro a b ha
  rw [clickMat_envInstalled]; exact ha

theorem foldl_clickMat_overlay_none (l : List Nat) (acc : AppState × List DomWrite)
    (h : acc.1.overlay = none) : (l.foldl clickMat acc).1.overlay = none :=
  foldl_inv (fun a => a.1.overlay = none) clickMat clickMat_overlay_none l acc h

theorem foldl_clickMat_color (l : List Nat) (acc : AppState × List DomWrite)
    (i : Nat) (n c : String) (hc : targetColor n = some c)
    (hi : i ∈ l) (hn : (acc.1.mats i).name = n) :
    (l.foldl clickMat acc).1.mats i = { name := n, color := c } := by
  refine foldl_reach (fun a => a.1.mats i = { name := n, color := c })
    (fun a => (a.1.mats i).name = n) clickMat i ?_ ?_ ?_ l acc hi hn
  · intro a b ha
    rw [clickMat_name]; exact ha
  · intro a b ha
    exact clickMat_color_stable a b i n c hc ha
  · intro a ha
    exact clickMat_color_hit a i n c hc ha

theorem foldl_clickMat_write137 (l : List Nat) (acc : AppState × List DomWrite)
    (i : Nat) (hi : i ∈ l) (hn : (acc.1.mats i).name = "Material.137") :
    DomWrite.setInfoText "Title of obj: ROOF" ∈ (l.foldl clickMat acc).2 := by
  refine foldl_reach (fun a => DomWrite.setInfoText "Title of obj: ROOF" ∈ a.2)
    (fun a => (a.1.mats i).name = "Material.137") clickMat i ?_ ?_ ?_ l acc hi hn
  · intro a b ha
    rw [clickMat_name]; exact ha
  · intro a b ha
    exact clickMat_write_mono a b _ ha
  · intro a ha
    exact clickMat_write_hit137 a i ha

theorem foldl_clickMat_infoBlock (l : List Nat) (acc : AppState × List DomWrite)
    (i : Nat) (hi : i ∈ l) (hn : (acc.1.mats i).name = "Material.137") :
    (l.foldl clickMat acc).1.infoDisplay = "block" := by
  refine foldl_reach (fun a => a.1.infoDisplay = "block")
    (fun a => (a.1.mats i).name = "Material.137") clickMat i ?_ ?_ ?_ l acc hi hn
  · intro a b ha
    rw [clickMat_name]; exact ha
  · intro a b ha
    exact clickMat_infoBlock a b ha
  · intro a ha
    exact clickMat_info_hit137 a i ha

theorem foldl_clickMat_flex (l : List Nat) (acc : AppState × List DomWrite)
    (i : Nat) (hi : i ∈ l) (hn : (acc.1.mats i).name = roofMaterialName)
    (hov : (acc.1.overlay).isSome = true) :
    ∃ o, (l.foldl clickMat acc).1.overlay = some o ∧ o.display = "flex" := by
  refine foldl_reach (fun a => ∃ o, a.1.overlay = some o ∧ o.display = "flex")
    (fun a => (a.1.mats i).name = roofMaterialName ∧ (a.1.overlay).isSome = true)
    clickMat i ?_ ?_ ?_ l acc hi ⟨hn, hov⟩
  · intro a b ha
    rw [clickMat_name, clickMat_overlay_isSome]; exact ha
  · intro a b ha
    exact clickMat_overlay_flex a b ha
  · intro a ha
    exact clickMat_flex_hit a i ha.1 ha.2

theorem foldl_clickMat_raf (l : List Nat) (acc : AppState × List DomWrite)
    (i : Nat) (hi : i ∈ l) (hn : (acc.1.mats i).name = roofMaterialName)
    (hov : (acc.1.overlay).isSome = true) :
    (l.foldl clickMat acc).1.pendingRAF ≠ [] := by
  refine foldl_reach (fun a => a.1.pendingRAF ≠ [])
    (fun a => (a.1.mats i).name = roofMaterialName ∧ (a.1.overlay).isSome = true)
    clickMat i ?_ ?_ ?_ l acc hi ⟨hn, hov⟩
  · intro a b ha
    rw [clickMat_name, clickMat_overlay_isSome]; exact ha
  · intro a b ha
    exact clickMat_raf_mono a b ha
  · intro a ha
    exact clickMat_raf_hit a i ha.1 ha.2

theorem handleClick_clickable (s : AppState) (ray : List Mesh) :
    (handleClick s ray).1.clickable = s.clickable := by
  unfold handleClick
  cases (ray.filter (fun m => s.clickable.contains m)).head? with
  | none => rfl
  | some m => exact foldl_clickMat_clickable m.matIds (s, [])

theorem handleClick_phase (s : AppState) (ray : List Mesh) :
    (handleClick s ray).1.phase = s.phase := by
  unfold handleClick
  cases (ray.filter (fun m => s.clickable.contains m)).head? with
  | none => rfl
  | some m => exact foldl_clickMat_phase m.matIds (s, [])

theorem handleClick_envInstalled (s : AppState) (ray : List Mesh) :
    (handleClick s ray).1.envInstalled = s.envInstalled := by
  unfold handleClick
  cases (ray.filter (fun m => s.clickable.contains m)).head? with
  | none => rfl
  | some m => exact foldl_clickMat_envInstalled m.matIds (s, [])

theorem handleClick_empty (s : AppState) (ray : List Mesh)
    (h : s.clickable = []) : (handleClick s ray).1 = s := by
  have hf : ray.filter (fun m => s.clickable.contains m) = [] := by
    rw [h]
    exact List.filter_eq_nil_iff.mpr (fun m _ => by simp [List.contains])
  unfold handleClick
  rw [hf]
  rfl

theorem handleKeydown_fixed (s : AppState) :
    (handleKeydown s).clickable = s.clickable
    ∧ (handleKeydown s).phase = s.phase
    ∧ (handleKeydown s).envInstalled = s.envInstalled := by
  unfold handleKeydown
  cases hov : s.overlay with
  | none =>
      by_cases hb : s.infoDisplay = "block" <;> simp [hb]
  | some o =>
      by_cases hd : o.display = "flex"
      · by_cases hb : s.infoDisplay = "block" <;> simp [hd, hb]
      · by_cases hb : s.infoDisplay = "block" <;> simp [hd, hb]

theorem handleKeydown_clickable (s : AppState) :
    (handleKeydown s).clickable = s.clickable :=
  (handleKeydown_fixed s).1

theorem handleKeydown_phase (s : AppState) :
    (handleKeydown s).phase = s.phase :=
  (handleKeydown_fixed s).2.1

theorem handleKeydown_envInstalled (s : AppState) :
    (handleKeydown s).envInstalled = s.envInstalled :=
  (handleKeydown_fixed s).2.2

theorem runRAF_clickable (a : RAFAction) (s : AppState) :
    (runRAF a s).clickable = s.clickable := by
  cases a; unfold runRAF
  cases h : s.overlay <;> simp

theorem runRAF_phase (a : RAFAction) (s : AppState) :
    (runRAF a s).phase = s.phase := by
  cases a; unfold runRAF
  cases h : s.overlay <;> simp

theorem runRAF_envInstalled (a : RAFAction) (s : AppState) :
    (runRAF a s).envInstalled = s.envInstalled := by
  cases a; unfold runRAF
  cases h : s.overlay <;> simp

theorem runFrame_clickable (s : AppState) :
    (runFrame s).clickable = s.clickable := by
  unfold runFrame
  refine foldl_inv (fun t => t.clickable = s.clickable)
    (fun st a => runRAF a st) ?_ s.pendingRAF { s with pendingRAF := [] } rfl
  intro t a ht
  rw [runRAF_clickable]; exact ht

theorem runFrame_phase (s : AppState) :
    (runFrame s).phase = s.phase := by
  unfold runFrame
  refine foldl_inv (fun t => t.phase = s.phase)
    (fun st a => runRAF a st) ?_ s.pendingRAF { s with pendingRAF := [] } rfl
  intro t a ht
  rw [runRAF_phase]; exact ht

theorem runFrame_envInstalled (s : AppState) :
    (runFrame s).envInstalled = s.envInstalled := by
  unfold runFrame
  refine foldl_inv (fun t => t.envInstalled = s.envInstalled)
    (fun st a => runRAF a st) ?_ s.pendingRAF { s with pendingRAF := [] } rfl
  intro t a ht
  rw [runRAF_envInstalled]; exact ht

theorem runTimeoutAction_clickable (a : TimeoutAction) (s : AppState) :
    (runTimeoutAction a s).clickable = s.clickable := by
  cases a; unfold runTimeoutAction
  cases h : s.overlay <;> simp

theorem runTimeoutAction_phase (a : TimeoutAction) (s : AppState) :
    (runTimeoutAction a s).phase = s.phase := by
  cases a; unfold runTimeoutAction
  cases h : s.overlay <;> simp

theorem runTimeoutAction_envInstalled (a : TimeoutAction) (s : AppState) :
    (runTimeoutAction a s).envInstalled = s.envInstalled := by
  cases a; unfold runTimeoutAction
  cases h : s.overlay <;> simp

theorem fireFirstTimeout_clickable (s : AppState) :
    (fireFirstTimeout s).clickable = s.clickable := by
  unfold fireFirstTimeout
  cases s.pendingTimeouts with
  | nil => rfl
  | cons p rest => rw [runTimeoutAction_clickable]

theorem fireFirstTimeout_phase (s : AppState) :
    (fireFirstTimeout s).phase = s.phase := by
  unfold fireFirstTimeout
  cases s.pendingTimeouts with
  | nil => rfl
  | cons p rest => rw [runTimeoutAction_phase]

theorem fireFirstTimeout_envInstalled (s : AppState) :
    (fireFirstTimeout s).envInstalled = s.envInstalled := by
  unfold fireFirstTimeout
  cases s.pendingTimeouts with
  | nil => rfl
  | cons p rest => rw [runTimeoutAction_envInstalled]

theorem foldl_runRAF_opacity1 :
    ∀ (l : List RAFAction) (s : AppState) (o : OverlayStyle),
      s.overlay = some o → l ≠ [] →
      (l.foldl (fun st a => runRAF a st) s).overlay
        = some { display := o.display, opacity := "1" } := by
  intro l
  induction l with
  | nil => intro s o _ hne; exact absurd rfl hne
  | cons a t ih =>
      intro s o hov _
      cases a
      have h1 : (runRAF RAFAction.setOverlayOpacity1 s).overlay
          = some { display := o.display, opacity := "1" } := by
        simp [runRAF, hov]
      rw [List.foldl_cons]
      by_cases ht : t = []
      · subst ht
        simpa using h1
      · exact ih (runRAF RAFAction.setOverlayOpacity1 s)
          { display := o.display, opacity := "1" } h1 ht

theorem runFrame_opacity1 (s : AppState) (o : OverlayStyle)
    (hov : s.overlay = some o) (hne : s.pendingRAF ≠ []) :
    (runFrame s).overlay = some { display := o.display, opacity := "1" } := by
  unfold runFrame
  exact foldl_runRAF_opacity1 s.pendingRAF { s with pendingRAF := [] } o hov hne

/-- C1: a click whose nearest clickable hit is a mesh carrying a material
named "Material.137" sets that material color to "#FFD700", performs the
write of "Title of obj: ROOF" into the materialText element, and leaves
the info panel display "block" (visible). -/
theorem click_material137_recolors_and_shows_info (s : AppState)
    (ray : List Mesh) (m : Mesh) (i : Nat)
    (hm : (ray.filter (fun x => s.clickable.contains x)).head? = some m)
    (hi : i ∈ m.matIds)
    (hn : (s.mats i).name = "Material.137") :
    (handleClick s ray).1.mats i = { name := "Material.137", color := "#FFD700" }
    ∧ DomWrite.setInfoText "Title of obj: ROOF" ∈ (handleClick s ray).2
    ∧ (handleClick s ray).1.infoDisplay = "block" := by
  unfold handleClick
  rw [hm]
  refine ⟨?_, ?_, ?_⟩
  · exact foldl_clickMat_color m.matIds (s, []) i "Material.137" "#FFD700"
      (by decide) hi hn
  · exact foldl_clickMat_write137 m.matIds (s, []) i hi hn
  · exact foldl_clickMat_infoBlock m.matIds (s, []) i hi hn

/-- Demo mesh for the info panel claim: a single material at store index 0. -/
def mesh137 : Mesh := { id := 0, matIds := [0] }

/-- Demo state for the info panel claim: the store holds a material named
"Material.137" and the mesh is clickable. -/
def state137 : AppState where
  phase := Phase.modelLoaded
  envInstalled := true
  mats := fun _ => { name := "Material.137", color := "#000000" }
  clickable := [mesh137]
  overlay := none
  infoDisplay := ""
  infoText := ""
  pendingRAF := []
  pendingTimeouts := []
  camera := { aspect := 1, projAspect := 1 }
  renderer := { width := 1, height := 1 }

theorem click_material137_witness :
    (handleClick state137 [mesh137]).1.mats 0
        = { name := "Material.137", color := "#FFD700" }
    ∧ DomWrite.setInfoText "Title of obj: ROOF" ∈ (handleClick state137 [mesh137]).2
    ∧ (handleClick state137 [mesh137]).1.infoDisplay = "block" :=
  click_material137_recolors_and_shows_info state137 [mesh137] mesh137 0
    (by decide) (by decide) (by decide)

/-- C2: a click whose nearest clickable hit carries a material named
"genting.004" (the overlay element being present) recolors every material
of the mesh with that name to roofColor, sets the overlay display to
"flex" already before the next frame, and the paint frame then raises the
overlay opacity to "1" with the display still "flex". -/
theorem click_roof_recolors_and_reveals (s : AppState) (ray : List Mesh)
    (m : Mesh) (i : Nat)
    (hm : (ray.filter (fun x => s.clickable.contains x)).head? = some m)
    (hi : i ∈ m.matIds)
    (hn : (s.mats i).name = roofMaterialName)
    (hov : (s.overlay).isSome = true) :
    (∀ j ∈ m.matIds, (s.mats j).name = roofMaterialName →
        (handleClick s ray).1.mats j = { name := roofMaterialName, color := roofColor })
    ∧ (∃ o, (handleClick s ray).1.overlay = some o ∧ o.display = "flex")
    ∧ (runFrame (handleClick s ray).1).overlay
        = some { display := "flex", opacity := "1" } := by
  unfold handleClick
  rw [hm]
  refine ⟨?_, ?_, ?_⟩
  · intro j hj hjn
    exact foldl_clickMat_color m.matIds (s, []) j roofMaterialName roofColor
      (by decide) hj hjn
  · exact foldl_clickMat_flex m.matIds (s, []) i hi hn hov
  · obtain ⟨o, ho, hd⟩ := foldl_clickMat_flex m.matIds (s, []) i hi hn hov
    have hraf := foldl_clickMat_raf m.matIds (s, []) i hi hn hov
    have hfr := runFrame_opacity1 _ o ho hraf
    rw [hfr, hd]

/-- Demo mesh for the roof claim: a single material at store index 0. -/
def meshRoofW : Mesh := { id := 0, matIds := [0] }

/-- Demo state for the roof claim: the store holds the roof material and
the overlay element is present and hidden. -/
def stateRoofW : AppState where
  phase := Phase.modelLoaded
  envInstalled := true
  mats := fun _ => { name := "genting.004", color := "#000000" }
  clickable := [meshRoofW]
  overlay := some { display := "none", opacity := "0" }
  infoDisplay := ""
  infoText := ""
  pendingRAF := []
  pendingTimeouts := []
  camera := { aspect := 1, projAspect := 1 }
  renderer := { width := 1, height := 1 }

theorem click_roof_witness :
    (∀ j ∈ meshRoofW.matIds, (stateRoofW.mats j).name = roofMaterialName →
        (handleClick stateRoofW [meshRoofW]).1.mats j
          = { name := roofMaterialName, color := roofColor })
    ∧ (∃ o, (handleClick stateRoofW [meshRoofW]).1.overlay = some o
          ∧ o.display = "flex")
    ∧ (runFrame (handleClick stateRoofW [meshRoofW]).1).overlay
        = some { display := "flex", opacity := "1" } :=
  click_roof_recolors_and_reveals stateRoofW [meshRoofW] meshRoofW 0
    (by decide) (by decide) (by decide) (by decide)

/-- C3: a click whose ray hits no mesh of the clickable list leaves the
whole state unchanged (no material color, no overlay, no panel changes)
and performs no write. -/
theorem click_miss_changes_nothing (s : AppState) (ray : List Mesh)
    (h : ray.filter (fun m => s.clickable.contains m) = []) :
    (handleClick s ray).1 = s ∧ (handleClick s ray).2 = [] := by
  unfold handleClick
  rw [h]
  exact ⟨rfl, rfl⟩

theorem click_miss_witness :
    (handleClick (initState none 4 3) []).1 = initState none 4 3
    ∧ (handleClick (initState none 4 3) []).2 = [] :=
  click_miss_changes_nothing (initState none 4 3) [] rfl

/-- C4: Escape while the overlay is visible (display "flex") immediately
sets its opacity to "0", appends exactly one pending 300 ms timeout whose
action sets the overlay display to "none" when it fires, and hides the
info panel immediately (display "none") exactly when it was "block". -/
theorem escape_hides_overlays (s : AppState) (o : OverlayStyle)
    (hov : s.overlay = some o) (hd : o.display = "flex") :
    (handleKeydown s).overlay = some { display := o.display, opacity := "0" }
    ∧ (handleKeydown s).pendingTimeouts
        = s.pendingTimeouts ++ [(300, TimeoutAction.hideOverlay)]
    ∧ (handleKeydown s).infoDisplay
        = (if s.infoDisplay = "block" then "none" else s.infoDisplay)
    ∧ (∀ (t : AppState) (o2 : OverlayStyle), t.overlay = some o2 →
        (runTimeoutAction TimeoutAction.hideOverlay t).overlay
          = some { display := "none", opacity := o2.opacity }) := by
  have hto : ∀ (t : AppState) (o2 : OverlayStyle), t.overlay = some o2 →
      (runTimeoutAction TimeoutAction.hideOverlay t).overlay
        = some { display := "none", opacity := o2.opacity } := by
    intro t o2 ht
    simp [runTimeoutAction, ht]
  refine ⟨?_, ?_, ?_, hto⟩ <;>
  · unfold handleKeydown
    simp only [hov, hd]
    by_cases hb : s.infoDisplay = "block" <;> simp [hb]

/-- Demo state for the Escape claim: overlay visible, info panel shown. -/
def stateEsc : AppState where
  phase := Phase.modelLoaded
  envInstalled := true
  mats := fun _ => { name := "genting.004", color := roofColor }
  clickable := []
  overlay := some { display := "flex", opacity := "1" }
  infoDisplay := "block"
  infoText := "Title of obj: ROOF"
  pendingRAF := []
  pendingTimeouts := []
  camera := { aspect := 1, projAspect := 1 }
  renderer := { width := 1, height := 1 }

theorem escape_hides_overlays_witness :
    (handleKeydown stateEsc).overlay = some { display := "flex", opacity := "0" }
    ∧ (handleKeydown stateEsc).pendingTimeouts
        = [] ++ [(300, TimeoutAction.hideOverlay)]
    ∧ (handleKeydown stateEsc).infoDisplay
        = (if stateEsc.infoDisplay = "block" then "none" else stateEsc.infoDisplay)
    ∧ (∀ (t : AppState) (o2 : OverlayStyle), t.overlay = some o2 →
        (runTimeoutAction TimeoutAction.hideOverlay t).overlay
          = some { display := "none", opacity := o2.opacity }) :=
  escape_hides_overlays stateEsc { display := "flex", opacity := "1" } rfl rfl

/-- C7: the resize handler writes aspect w / h into the camera, bakes the
same aspect into the projection, sets the renderer size to (w, h), and a
second identical resize leaves the state exactly as after the first. -/
theorem resize_updates_and_idempotent (w h : ℚ) (s : AppState) :
    (handleResize w h s).camera.aspect = w / h
    ∧ (handleResize w h s).camera.projAspect = w / h
    ∧ (handleResize w h s).renderer = { width := w, height := h }
    ∧ handleResize w h (handleResize w h s) = handleResize w h s :=
  ⟨rfl, rfl, rfl, rfl⟩

/-- C9: with the overlay element absent every overlay-touching path is
guarded: the initial hide leaves the overlay absent, a roof click still
recolors the roof material while the overlay stays absent, and Escape
keeps the overlay absent and schedules no hide timeout. -/
theorem overlay_absent_degrades_gracefully (s : AppState) (ray : List Mesh)
    (m : Mesh) (i : Nat)
    (hov : s.overlay = none)
    (hm : (ray.filter (fun x => s.clickable.contains x)).head? = some m)
    (hi : i ∈ m.matIds)
    (hn : (s.mats i).name = roofMaterialName) :
    (∀ w h : ℚ, (initState none w h).overlay = none)
    ∧ (handleClick s ray).1.overlay = none
    ∧ (handleClick s ray).1.mats i = { name := roofMaterialName, color := roofColor }
    ∧ (handleKeydown s).overlay = none
    ∧ (handleKeydown s).pendingTimeouts = s.pendingTimeouts := by
  refine ⟨fun w h => rfl, ?_, ?_, ?_, ?_⟩
  · unfold handleClick
    rw [hm]
    exact foldl_clickMat_overlay_none m.matIds (s, []) hov
  · unfold handleClick
    rw [hm]
    exact foldl_clickMat_color m.matIds (s, []) i roofMaterialName roofColor
      (by decide) hi hn
  · unfold handleKeydown
    simp only [hov]
    by_cases hb : s.infoDisplay = "block" <;> simp [hb, hov]
  · unfold handleKeydown
    simp only [hov]
    by_cases hb : s.infoDisplay = "block" <;> simp [hb]

/-- Demo mesh for the absent-overlay claim. -/
def meshNoOv : Mesh := { id := 0, matIds := [0] }

/-- Demo state for the absent-overlay claim: roof material, no overlay
element on the page. -/
def stateNoOv : AppState where
  phase := Phase.modelLoaded
  envInstalled := true
  mats := fun _ => { name := "genting.004", color := "#000000" }
  clickable := [meshNoOv]
  overlay := none
  infoDisplay := ""
  infoText := ""
  pendingRAF := []
  pendingTimeouts := []
  camera := { aspect := 1, projAspect := 1 }
  renderer := { width := 1, height := 1 }

theorem overlay_absent_witness :
    (∀ w h : ℚ, (initState none w h).overlay = none)
    ∧ (handleClick stateNoOv [meshNoOv]).1.overlay = none
    ∧ (handleClick stateNoOv [meshNoOv]).1.mats 0
        = { name := roofMaterialName, color := roofColor }
    ∧ (handleKeydown stateNoOv).overlay = none
    ∧ (handleKeydown stateNoOv).pendingTimeouts = stateNoOv.pendingTimeouts :=
  overlay_absent_degrades_gracefully stateNoOv [meshNoOv] meshNoOv 0
    rfl (by decide) (by decide) (by decide)

/-- C5: membership in the clickable list built at model load holds exactly
for meshes of the model with at least one material of a known name, and no
click, Escape, frame, timeout-firing or resize step changes the list. -/
theorem clickable_set_characterised_and_stable :
    (∀ (store : Nat → Material) (meshes : List Mesh) (m : Mesh),
        m ∈ buildClickable store meshes ↔
          m ∈ meshes ∧ ∃ i ∈ m.matIds, isClickableName (store i).name = true)
    ∧ (∀ (s : AppState) (ray : List Mesh),
        (step s (Event.click ray)).clickable = s.clickable)
    ∧ (∀ s : AppState, (step s Event.keydownEscape).clickable = s.clickable)
    ∧ (∀ s : AppState, (step s Event.frame).clickable = s.clickable)
    ∧ (∀ s : AppState, (step s Event.fireTimeout).clickable = s.clickable)
    ∧ (∀ (s : AppState) (w h : ℚ),
        (step s (Event.resize w h)).clickable = s.clickable) := by
  refine ⟨?_, ?_, ?_, ?_, ?_, ?_⟩
  · intro store meshes m
    unfold buildClickable matchingMatIds
    constructor
    · intro hm
      obtain ⟨m2, hm2, hmem⟩ := List.mem_flatMap.mp hm
      obtain ⟨i, hifil, hieq⟩ := List.mem_map.mp hmem
      obtain ⟨hi, hcl⟩ := List.mem_filter.mp hifil
      subst hieq
      exact ⟨hm2, i, hi, hcl⟩
    · rintro ⟨hm, i, hi, hcl⟩
      exact List.mem_flatMap.mpr ⟨m, hm,
        List.mem_map.mpr ⟨i, List.mem_filter.mpr ⟨hi, hcl⟩, rfl⟩⟩
  · intro s ray; exact handleClick_clickable s ray
  · intro s; exact handleKeydown_clickable s
  · intro s; exact runFrame_clickable s
  · intro s; exact fireFirstTimeout_clickable s
  · intro s w h; rfl

/-- Demo store for the clickable set claim: index 0 holds a known glass
name, index 1 an unknown name. -/
def storeC5 : Nat → Material :=
  fun i => if i = 0 then { name := "Glass.009", color := "#FFFFFF" }
           else { name := "plain", color := "#FFFFFF" }

/-- Demo mesh for the clickable set claim. -/
def meshC5 : Mesh := { id := 3, matIds := [1, 0] }

theorem clickable_set_witness :
    meshC5 ∈ buildClickable storeC5 [meshC5] :=
  (clickable_set_characterised_and_stable.1 storeC5 [meshC5] meshC5).mpr
    ⟨by decide, 0, by decide, by decide⟩

/-- Reachability invariant of the event system: past the start phase the
environment map is installed, and before the model load completes the
clickable list is empty. -/
def StInv (s : AppState) : Prop :=
  (s.phase ≠ Phase.start → s.envInstalled = true)
  ∧ (s.phase ≠ Phase.modelLoaded → s.clickable = [])

theorem step_StInv (s : AppState) (e : Event) (h : StInv s) : StInv (step s e) := by
  obtain ⟨h1, h2⟩ := h
  unfold StInv
  cases e with
  | envLoadComplete =>
      simp only [step]
      by_cases hp : s.phase = Phase.start
      · rw [if_pos hp]
        exact ⟨fun _ => rfl, fun _ => h2 (by rw [hp]; decide)⟩
      · rw [if_neg hp]
        exact ⟨h1, h2⟩
  | modelLoadComplete store meshes =>
      simp only [step]
      by_cases hp : s.phase = Phase.envLoaded
      · rw [if_pos hp]
        exact ⟨fun _ => h1 (by rw [hp]; decide), fun hc => absurd rfl hc⟩
      · rw [if_neg hp]
        exact ⟨h1, h2⟩
  | click ray =>
      show StInv ((handleClick s ray).1)
      unfold StInv
      rw [handleClick_phase, handleClick_envInstalled, handleClick_clickable]
      exact ⟨h1, h2⟩
  | keydownEscape =>
      show StInv (handleKeydown s)
      unfold StInv
      rw [handleKeydown_phase, handleKeydown_envInstalled, handleKeydown_clickable]
      exact ⟨h1, h2⟩
  | frame =>
      show StInv (runFrame s)
      unfold StInv
      rw [runFrame_phase, runFrame_envInstalled, runFrame_clickable]
      exact ⟨h1, h2⟩
  | fireTimeout =>
      show StInv (fireFirstTimeout s)
      unfold StInv
      rw [fireFirstTimeout_phase, fireFirstTimeout_envInstalled,
        fireFirstTimeout_clickable]
      exact ⟨h1, h2⟩
  | resize w h =>
      exact ⟨h1, h2⟩

theorem runTrace_StInv (ov : Option OverlayStyle) (w h : ℚ)
    (trace : List Event) : StInv (runTrace ov w h trace) := by
  unfold runTrace
  refine foldl_inv StInv step (fun s e hs => step_StInv s e hs) trace
    (initState ov w h) ?_
  exact ⟨fun hp => absurd rfl hp, fun _ => rfl⟩

theorem noEnv_phase_start (trace : List Event) :
    ∀ s : AppState, Event.envLoadComplete ∉ trace →
      s.phase = Phase.start → (trace.foldl step s).phase = Phase.start := by
  induction trace with
  | nil => intro s _ hs; exact hs
  | cons e t ih =>
      intro s hmem hs
      have he : e ≠ Event.envLoadComplete := by
        intro hh
        subst hh
        exact hmem (List.mem_cons_self _ _)
      have hstep : (step s e).phase = Phase.start := by
        cases e with
        | envLoadComplete => exact absurd rfl he
        | modelLoadComplete store meshes =>
            have hne : ¬ s.phase = Phase.envLoaded := by rw [hs]; decide
            show (if s.phase = Phase.envLoaded then
                { s with phase := Phase.modelLoaded, mats := store,
                         clickable := buildClickable store meshes }
              else s).phase = Phase.start
            rw [if_neg hne]
            exact hs
        | click ray =>
            show (handleClick s ray).1.phase = Phase.start
            rw [handleClick_phase]; exact hs
        | keydownEscape =>
            show (handleKeydown s).phase = Phase.start
            rw [handleKeydown_phase]; exact hs
        | frame =>
            show (runFrame s).phase = Phase.start
            rw [runFrame_phase]; exact hs
        | fireTimeout =>
            show (fireFirstTimeout s).phase = Phase.start
            rw [fireFirstTimeout_phase]; exact hs
        | resize w h => exact hs
      rw [List.foldl_cons]
      exact ih (step s e) (fun hmm => hmem (List.mem_cons_of_mem e hmm)) hstep

/-- C6: in every run of the script, the model load can only have completed
after the environment callback fired and installed the environment map on
the scene; and from any reachable state in which the model load has not
completed, the clickable list is empty and a click leaves the state
unchanged. -/
theorem env_before_model_and_preload_click_noop (ov : Option OverlayStyle)
    (w h : ℚ) (trace : List Event) (ray : List Mesh) :
    ((runTrace ov w h trace).phase = Phase.modelLoaded →
        (runTrace ov w h trace).envInstalled = true
        ∧ Event.envLoadComplete ∈ trace)
    ∧ ((runTrace ov w h trace).phase ≠ Phase.modelLoaded →
        (runTrace ov w h trace).clickable = []
        ∧ step (runTrace ov w h trace) (Event.click ray) = runTrace ov w h trace) := by
  have hinv := runTrace_StInv ov w h trace
  constructor
  · intro hp
    refine ⟨hinv.1 (by rw [hp]; decide), ?_⟩
    by_contra hmem
    have hstart := noEnv_phase_start trace (initState ov w h) hmem rfl
    rw [show runTrace ov w h trace
        = trace.foldl step (initState ov w h) from rfl, hstart] at hp
    exact Phase.noConfusion hp
  · intro hp
    refine ⟨hinv.2 hp, ?_⟩
    show (handleClick (runTrace ov w h trace) ray).1 = runTrace ov w h trace
    exact handleClick_empty _ ray (hinv.2 hp)

theorem preload_click_witness :
    (runTrace none 4 3 []).clickable = []
    ∧ step (runTrace none 4 3 []) (Event.click []) = runTrace none 4 3 [] :=
  (env_before_model_and_preload_click_noop none 4 3 [] []).2 (by decide)

/-- Roof mesh for the rapid-toggle scenario. -/
def meshTog : Mesh := { id := 0, matIds := [0] }

/-- Rapid-toggle scenario start state: the roof overlay currently shown
(display "flex", opacity "1"), info panel hidden, roof mesh clickable. -/
def stateTogShown : AppState where
  phase := Phase.modelLoaded
  envInstalled := true
  mats := fun _ => { name := "genting.004", color := roofColor }
  clickable := [meshTog]
  overlay := some { display := "flex", opacity := "1" }
  infoDisplay := "none"
  infoText := "Material info will appear here."
  pendingRAF := []
  pendingTimeouts := []
  camera := { aspect := 1, projAspect := 1 }
  renderer := { width := 1, height := 1 }

/-- Rapid-toggle scenario start state with the overlay hidden. -/
def stateTogHidden : AppState :=
  { stateTogShown with overlay := some { display := "none", opacity := "0" } }

/-- Escape followed within the 300 ms window by a roof re-click: the
click, then its paint frame, then the stale hide timer firing. -/
def staleTimerRun : AppState :=
  step (step (step (step stateTogShown Event.keydownEscape)
    (Event.click [meshTog])) Event.frame) Event.fireTimeout

/-- Two Escapes in a row, then both scheduled hide timers firing. -/
def doubleEscRun : AppState :=
  step (step (step (step stateTogShown Event.keydownEscape)
    Event.keydownEscape) Event.fireTimeout) Event.fireTimeout

/-- One Escape, then its scheduled hide timer firing. -/
def singleEscRun : AppState :=
  step (step stateTogShown Event.keydownEscape) Event.fireTimeout

/-- Two roof clicks in a row, then the paint frame. -/
def doubleClickRun : AppState :=
  step (step (step stateTogHidden (Event.click [meshTog]))
    (Event.click [meshTog])) Event.frame

/-- One roof click, then the paint frame. -/
def singleClickRun : AppState :=
  step (step stateTogHidden (Event.click [meshTog])) Event.frame

/-- C8 counterexample: after Escape on the visible overlay and a roof
re-click within the 300 ms hide delay (click, then its paint frame, then
the stale timer firing), the overlay display is "none" and not the "flex"
that the last (show) operation requested: the claim that no pending timer
from an earlier hide overrides a later show fails on this input. -/
theorem stale_hide_timer_overrides_later_show :
    overlayDisplayOf staleTimerRun = some "none"
    ∧ overlayDisplayOf staleTimerRun ≠ some "flex" := by
  constructor
  · rfl
  · decide

/-- C8 amended: re-running the same operation is harmless (a second Escape
just re-sets opacity "0" and re-schedules the same hide, so double Escape
ends, after its timers fire, in exactly the single-Escape state; a second
roof click re-sets the same shown state, display "flex" and opacity "1"
after the frame, like a single click), and the overlay opacity does end at
the value of the last operation; but a later show does not cancel an
pending 300 ms timer of an earlier hide, so a roof re-click within the delay
ends with display "none" (opacity "1"): the stale hide timer overrides the
display flag of the later show. -/
theorem rapid_toggle_amended :
    (doubleEscRun = singleEscRun
      ∧ overlayDisplayOf singleEscRun = some "none"
      ∧ overlayOpacityOf singleEscRun = some "0")
    ∧ (overlayDisplayOf doubleClickRun = some "flex"
      ∧ overlayOpacityOf doubleClickRun = some "1"
      ∧ doubleClickRun.mats 0 = { name := roofMaterialName, color := roofColor }
      ∧ overlayDisplayOf singleClickRun = some "flex"
      ∧ overlayOpacityOf singleClickRun = some "1"
      ∧ singleClickRun.mats 0 = { name := roofMaterialName, color := roofColor })
    ∧ (overlayDisplayOf staleTimerRun = some "none"
      ∧ overlayOpacityOf staleTimerRun = some "1") := by
  exact ⟨⟨rfl, rfl, rfl⟩, ⟨rfl, rfl, rfl, rfl, rfl, rfl⟩, ⟨rfl, rfl⟩⟩

theorem buildClickable_cons (store : Nat → Material) (x : Mesh)
    (xs : List Mesh) :
    buildClickable store (x :: xs)
      = (matchingMatIds store x).map (fun _ => x) ++ buildClickable store xs := by
  unfold buildClickable
  rw [List.flatMap_cons]

/-- C10: the loadModel traversal pushes the mesh once per matching
material: in general the occurrence count of a mesh in the clickable list
is its number of known-name materials times its occurrence count in the
traversal, so a mesh traversed once with k matching materials appears
exactly k times (duplicate entries). -/
theorem clickable_entry_per_matching_material :
    (∀ (store : Nat → Material) (meshes : List Mesh) (m : Mesh),
        (buildClickable store meshes).count m
          = (matchingMatIds store m).length * meshes.count m)
    ∧ (∀ (store : Nat → Material) (meshes : List Mesh) (m : Mesh),
        meshes.count m = 1 →
        (buildClickable store meshes).count m
          = (matchingMatIds store m).length) := by
  have hgen : ∀ (store : Nat → Material) (meshes : List Mesh) (m : Mesh),
      (buildClickable store meshes).count m
        = (matchingMatIds store m).length * meshes.count m := by
    intro store meshes m
    induction meshes with
    | nil => simp [buildClickable]
    | cons x xs ih =>
        rw [buildClickable_cons, List.count_append, ih, List.map_const',
          List.count_replicate, List.count_cons]
        by_cases hxm : x = m
        · subst hxm
          simp only [beq_self_eq_true, if_true]
          rw [Nat.mul_add, Nat.mul_one]
          ring
        · have hbeq : (x == m) = false := beq_eq_false_iff_ne.mpr hxm
          simp [hbeq]
  refine ⟨hgen, ?_⟩
  intro store meshes m h1
  rw [hgen store meshes m, h1, Nat.mul_one]

/-- Demo store for the duplicate-entry claim: indices 0 and 1 hold known
names, index 2 an unknown one. -/
def storeC10 : Nat → Material :=
  fun i => if i = 0 then { name := "genting.004", color := "#FFFFFF" }
           else if i = 1 then { name := "Material.137", color := "#FFFFFF" }
           else { name := "plain", color := "#FFFFFF" }

/-- Demo mesh for the duplicate-entry claim: two matching materials and
one non-matching one. -/
def meshC10 : Mesh := { id := 7, matIds := [0, 2, 1] }

theorem clickable_entry_witness :
    (buildClickable storeC10 [meshC10]).count meshC10
      = (matchingMatIds storeC10 meshC10).length :=
  clickable_entry_per_matching_material.2 storeC10 [meshC10] meshC10 (by decide)

end ThreeHouse
